import Mathlib

/-!
Shallow embedding of the weather-getter-otel system: a Gateway (Service A)
and a Resolver (Service B) chained in series, plus a standalone single-service
variant, all written in Go.  Outbound HTTP interactions (the Resolver seen
from the Gateway, the ViaCEP geocoding API, and the WeatherAPI weather API)
are modelled as explicit stub values passed to the handlers; each handler
additionally reports how many outbound calls it attempted, so that
"no outbound call is made" is a provable statement.  Go float64 temperature
values are modelled as exact rationals; Go errors are modelled as
Except String carrying the exact format strings of the source.
-/

/-- Result of decoding an HTTP response body into a value of type alpha:
either the JSON decoder fails or it yields a value. -/
inductive DecodeResult (α : Type) where
  | malformed
  | decoded (val : α)
deriving DecidableEq

/-- Result of one outbound HTTP round trip: either the transport fails
(client.Do / client.Get returns an error, which includes timeouts) or a
response with a status code and a body arrives. -/
inductive FetchResult (α : Type) where
  | transportError
  | response (status : Nat) (body : DecodeResult α)
deriving DecidableEq

/-- ViaCEPResponse: the geocoding API's JSON payload (shared/types and main.go). -/
structure ViaCEPResponse where
  cep : String
  logradouro : String
  complemento : String
  bairro : String
  localidade : String
  uf : String
  ibge : String
  gia : String
  ddd : String
  siafi : String
  erro : Bool
deriving DecidableEq

/-- Location metadata of the weather API payload. -/
structure WeatherLocation where
  name : String
  region : String
  country : String
  lat : Rat
  lon : Rat
deriving DecidableEq

/-- Current-conditions part of the weather API payload. -/
structure WeatherCurrent where
  tempC : Rat
  tempF : Rat
deriving DecidableEq

/-- WeatherAPIResponse: the weather API's JSON payload. -/
structure WeatherAPIResponse where
  location : WeatherLocation
  current : WeatherCurrent
deriving DecidableEq

namespace Shared

/-- shared.Config (shared/config in the two-service deployment). -/
structure Config where
  port : String
  logLevel : String
  logJSON : Bool
  weatherAPIKey : String
  serviceBURL : String
  zipkinURL : String
deriving DecidableEq

/-- shared.WeatherResponse: the combined endpoint's success payload,
city plus the three temperatures. -/
structure WeatherResponse where
  city : String
  tempC : Rat
  tempF : Rat
  tempK : Rat
deriving DecidableEq

end Shared

namespace Standalone

/-- config.Config of the standalone single-service deployment
(src/config/config.go), which has the development-mode flag. -/
structure Config where
  port : String
  weatherAPIKey : String
  devMode : Bool
  logJSON : Bool
  logLevel : String
deriving DecidableEq

/-- main.go WeatherResponse: the standalone success payload, three
temperatures and no city field. -/
structure WeatherResponse where
  tempC : Rat
  tempF : Rat
  tempK : Rat
deriving DecidableEq

end Standalone

/-- Response body written by a handler: either an ErrorResponse envelope
with a single message field, or an encoded success report. -/
inductive Body (α : Type) where
  | msg (message : String)
  | report (r : α)
deriving DecidableEq

/-- One HTTP response as written by a handler: status code and body. -/
structure HttpResponse (α : Type) where
  status : Nat
  body : Body α
deriving DecidableEq

/-- How many outbound calls a handler attempted, by collaborator. -/
structure CallCounts where
  geoCalls : Nat
  weatherCalls : Nat
deriving DecidableEq

/-- The body of the inbound request, as the handler sees it: reading the
body can fail, JSON unmarshalling can fail, or a cep string is extracted. -/
inductive RequestBody where
  | readError
  | invalidJson
  | parsed (cep : String)
deriving DecidableEq

/-- An inbound HTTP request to one of the POST handlers. -/
structure Request where
  method : String
  body : RequestBody
deriving DecidableEq

/-- Anchored matcher for the regular expression pattern of n consecutive
digit-class atoms between the anchors, i.e. the pattern used by all three
isValidZipcode copies with n = 8: the whole character list must consist of
exactly n ASCII decimal digits. -/
def matchDigitsAnchored : List Char → Nat → Bool
  | [], 0 => true
  | [], _ + 1 => false
  | _ :: _, 0 => false
  | c :: cs, n + 1 => c.isDigit && matchDigitsAnchored cs n

namespace ServiceA

/-- ServiceA.isValidZipcode: regexp.MatchString on the 8-digit pattern. -/
def isValidZipcode (zipcode : String) : Bool :=
  matchDigitsAnchored zipcode.toList 8

end ServiceA

namespace ServiceB

/-- ServiceB.isValidZipcode: regexp.MatchString on the 8-digit pattern. -/
def isValidZipcode (zipcode : String) : Bool :=
  matchDigitsAnchored zipcode.toList 8

end ServiceB

namespace Standalone

/-- isValidZipcode of the standalone main.go: regexp.MatchString on the
8-digit pattern. -/
def isValidZipcode (zipcode : String) : Bool :=
  matchDigitsAnchored zipcode.toList 8

end Standalone

namespace ServiceB

/-- ServiceB.getLocationFromCEP: classify the outcome of the ViaCEP call.
A transport error, a non-200 status, a body the decoder rejects, and a
decoded body whose erro flag is set or whose localidade is empty all
return an error; otherwise the decoded ViaCEPResponse is returned.  The
outbound call itself is attempted unconditionally (request construction
from the fixed URL pattern cannot fail). -/
def getLocationFromCEP (geo : FetchResult ViaCEPResponse) :
    Except String ViaCEPResponse :=
  match geo with
  | .transportError => .error "error contacting ViaCEP"
  | .response status mbody =>
    if status ≠ 200 then
      .error ("ViaCEP returned status code " ++ toString status)
    else
      match mbody with
      | .malformed => .error "error decoding ViaCEP response"
      | .decoded v =>
        if v.erro || v.localidade == "" then .error "CEP not found"
        else .ok v

/-- ServiceB.getWeatherFromLocation: the API key is checked first; when it
is empty the function returns an error before any HTTP call is issued
(second component counts the calls attempted).  Otherwise the call is made
and a transport error, a non-200 status or a decode failure each return an
error; a decoded 200 body is returned. -/
def getWeatherFromLocation (apiKey : String)
    (weather : FetchResult WeatherAPIResponse) :
    Except String WeatherAPIResponse × Nat :=
  if apiKey == "" then
    (.error "WEATHER_API_KEY environment variable not set", 0)
  else
    match weather with
    | .transportError => (.error "failed to make request", 1)
    | .response status mbody =>
      if status ≠ 200 then
        (.error ("weather API returned status code " ++ toString status), 1)
      else
        match mbody with
        | .malformed => (.error "error decoding response", 1)
        | .decoded w => (.ok w, 1)

/-- ServiceB.handleWeatherRequest: method check, body read, JSON parse,
zipcode validation, geocoding lookup, weather lookup, and assembly of the
WeatherResponse with TempK computed as TempC + 273.15.  Every early exit
writes a single error envelope and returns. -/
def handleWeatherRequest (config : Shared.Config) (req : Request)
    (geo : FetchResult ViaCEPResponse)
    (weather : FetchResult WeatherAPIResponse) :
    HttpResponse Shared.WeatherResponse × CallCounts :=
  if req.method ≠ "POST" then
    (⟨405, .msg "method not allowed"⟩, ⟨0, 0⟩)
  else
    match req.body with
    | .readError => (⟨400, .msg "invalid request body"⟩, ⟨0, 0⟩)
    | .invalidJson => (⟨400, .msg "invalid json format"⟩, ⟨0, 0⟩)
    | .parsed cep =>
      if !isValidZipcode cep then
        (⟨422, .msg "invalid zipcode"⟩, ⟨0, 0⟩)
      else
        match getLocationFromCEP geo with
        | .error _ => (⟨404, .msg "can not find zipcode"⟩, ⟨1, 0⟩)
        | .ok location =>
          match getWeatherFromLocation config.weatherAPIKey weather with
          | (.error _, n) =>
            (⟨500, .msg "error getting weather information"⟩, ⟨1, n⟩)
          | (.ok w, n) =>
            (⟨200, .report ⟨location.localidade, w.current.tempC,
              w.current.tempF, w.current.tempC + 273.15⟩⟩, ⟨1, n⟩)

end ServiceB

namespace ServiceA

/-- Outcome of the Gateway's round trip to the Resolver (Service B):
the transport can fail, reading the response body can fail, or a response
with a status and a body arrives. -/
inductive BResult where
  | transportError
  | readBodyError
  | response (status : Nat) (body : DecodeResult Shared.WeatherResponse)
deriving DecidableEq

/-- ServiceA.callServiceB: POSTs the cep to the Resolver and classifies
its answer.  A 404 becomes the error string matched upstream as not-found,
a 422 the invalid-zipcode error string, any other non-200 a status-bearing
error, and a 200 body is unmarshalled into the WeatherResponse. -/
def callServiceB (b : BResult) : Except String Shared.WeatherResponse :=
  match b with
  | .transportError => .error "failed to make request to service B"
  | .readBodyError => .error "failed to read response body"
  | .response status mbody =>
    if status = 404 then .error "can not find zipcode"
    else if status = 422 then .error "invalid zipcode"
    else if status ≠ 200 then
      .error ("service B returned status " ++ toString status)
    else
      match mbody with
      | .malformed => .error "failed to unmarshal response"
      | .decoded w => .ok w

/-- ServiceA.handleCEPRequest: method check, body read, JSON parse,
zipcode validation, then the call to Service B whose error string is
translated back into the Gateway's outward status.  The Nat counts calls
attempted to Service B. -/
def handleCEPRequest (req : Request) (b : BResult) :
    HttpResponse Shared.WeatherResponse × Nat :=
  if req.method ≠ "POST" then
    (⟨405, .msg "method not allowed"⟩, 0)
  else
    match req.body with
    | .readError => (⟨400, .msg "invalid request body"⟩, 0)
    | .invalidJson => (⟨400, .msg "invalid json format"⟩, 0)
    | .parsed cep =>
      if !isValidZipcode cep then
        (⟨422, .msg "invalid zipcode"⟩, 0)
      else
        match callServiceB b with
        | .error e =>
          if e = "can not find zipcode" then
            (⟨404, .msg "can not find zipcode"⟩, 1)
          else if e = "invalid zipcode" then
            (⟨422, .msg "invalid zipcode"⟩, 1)
          else
            (⟨500, .msg "error processing request"⟩, 1)
        | .ok w => (⟨200, .report w⟩, 1)

end ServiceA

namespace Standalone

/-- getLocationFromCEP of the standalone main.go, same logic as the
Resolver's copy. -/
def getLocationFromCEP (geo : FetchResult ViaCEPResponse) :
    Except String ViaCEPResponse :=
  match geo with
  | .transportError => .error "error contacting ViaCEP"
  | .response status mbody =>
    if status ≠ 200 then
      .error ("ViaCEP returned status code " ++ toString status)
    else
      match mbody with
      | .malformed => .error "error decoding ViaCEP response"
      | .decoded v =>
        if v.erro || v.localidade == "" then .error "CEP not found"
        else .ok v

/-- getWeatherFromLocation of the standalone main.go, same logic as the
Resolver's copy: empty API key errors before any call is attempted. -/
def getWeatherFromLocation (apiKey : String)
    (weather : FetchResult WeatherAPIResponse) :
    Except String WeatherAPIResponse × Nat :=
  if apiKey == "" then
    (.error "WEATHER_API_KEY environment variable not set", 0)
  else
    match weather with
    | .transportError => (.error "failed to make request", 1)
    | .response status mbody =>
      if status ≠ 200 then
        (.error ("weather API returned status code " ++ toString status), 1)
      else
        match mbody with
        | .malformed => (.error "error decoding response", 1)
        | .decoded w => (.ok w, 1)

/-- getMockWeatherData: a zero WeatherAPIResponse with the city name
echoed into Location.Name, Country set to Brazil, and 25.0 C / 77.0 F. -/
def getMockWeatherData (city : String) : WeatherAPIResponse :=
  ⟨⟨city, "", "Brazil", 0, 0⟩, ⟨25, 77⟩⟩

/-- handleWeatherRequest of the standalone main.go: the zipcode comes from
the URL path (no method check in the source), then geocoding, then the
weather lookup; a failed weather lookup is replaced by mock data when
config.DevMode is set and otherwise returns a 500 envelope.  TempK is
computed as TempC + 273.15. -/
def handleWeatherRequest (config : Config) (zipcode : String)
    (geo : FetchResult ViaCEPResponse)
    (weather : FetchResult WeatherAPIResponse) :
    HttpResponse WeatherResponse × CallCounts :=
  if !isValidZipcode zipcode then
    (⟨422, .msg "invalid zipcode"⟩, ⟨0, 0⟩)
  else
    match getLocationFromCEP geo with
    | .error _ => (⟨404, .msg "can not find zipcode"⟩, ⟨1, 0⟩)
    | .ok location =>
      match getWeatherFromLocation config.weatherAPIKey weather with
      | (.error _, n) =>
        if config.devMode then
          let w := getMockWeatherData location.localidade
          (⟨200, .report ⟨w.current.tempC, w.current.tempF,
            w.current.tempC + 273.15⟩⟩, ⟨1, n⟩)
        else
          (⟨500, .msg "error getting weather information"⟩, ⟨1, n⟩)
      | (.ok w, n) =>
        (⟨200, .report ⟨w.current.tempC, w.current.tempF,
          w.current.tempC + 273.15⟩⟩, ⟨1, n⟩)

end Standalone

/-- strconv.ParseBool: accepts exactly 1, t, T, TRUE, true, True for true
and 0, f, F, FALSE, false, False for false; everything else is an error. -/
def parseBool (s : String) : Option Bool :=
  if s = "1" || s = "t" || s = "T" || s = "TRUE" || s = "true" || s = "True"
    then some true
  else if s = "0" || s = "f" || s = "F" || s = "FALSE" || s = "false"
      || s = "False"
    then some false
  else none

namespace ConfigPkg

/-- getEnv of src/config/config.go: the environment value (empty string
models an unset variable, as os.Getenv returns) or the default. -/
def getEnv (value defaultValue : String) : String :=
  if value == "" then defaultValue else value

/-- getEnvAsBool of src/config/config.go: empty value or a ParseBool
error yields the default. -/
def getEnvAsBool (value : String) (defaultValue : Bool) : Bool :=
  if value == "" then defaultValue
  else
    match parseBool value with
    | none => defaultValue
    | some v => v

/-- GetConfig of src/config/config.go over an environment map
(os.Getenv modelled as a function from variable name to value, empty
string for unset). -/
def GetConfig (env : String → String) : Standalone.Config :=
  { port := getEnv (env "PORT") "8080"
    weatherAPIKey := env "WEATHER_API_KEY"
    devMode := getEnvAsBool (env "DEV_MODE") false
    logJSON := getEnvAsBool (env "LOG_JSON") false
    logLevel := getEnv (env "LOG_LEVEL") "INFO" }

end ConfigPkg

namespace Shared

/-- getEnv of the shared config package: non-empty value or default. -/
def getEnv (value defaultValue : String) : String :=
  if value != "" then value else defaultValue

/-- getEnvBool of the shared config package: a non-empty value that
ParseBool accepts is used; otherwise the default. -/
def getEnvBool (value : String) (defaultValue : Bool) : Bool :=
  if value != "" then
    match parseBool value with
    | some b => b
    | none => defaultValue
  else defaultValue

/-- GetConfig of the shared config package over an environment map. -/
def GetConfig (env : String → String) : Config :=
  { port := getEnv (env "PORT") "8080"
    logLevel := getEnv (env "LOG_LEVEL") "INFO"
    logJSON := getEnvBool (env "LOG_JSON") false
    weatherAPIKey := getEnv (env "WEATHER_API_KEY") ""
    serviceBURL := getEnv (env "SERVICE_B_URL") "http://localhost:8081"
    zipkinURL := getEnv (env "ZIPKIN_URL") "http://localhost:9411" }

end Shared

/-- A handler writes exactly one response, and that response is either a
200 carrying a success report or a non-200 carrying a single error
envelope; no mixed or partial shape exists. -/
def wellFormedResponse {α : Type} (resp : HttpResponse α) : Prop :=
  (resp.status = 200 ∧ ∃ r, resp.body = .report r) ∨
  (resp.status ≠ 200 ∧ ∃ m, resp.body = .msg m)

/-- Sample shared-deployment configuration with a non-empty API key. -/
def exCfgB : Shared.Config :=
  ⟨"8081", "INFO", false, "testkey", "http://localhost:8081",
    "http://localhost:9411"⟩

/-- Sample shared-deployment configuration with an empty API key. -/
def exCfgBNoKey : Shared.Config :=
  ⟨"8081", "INFO", false, "", "http://localhost:8081",
    "http://localhost:9411"⟩

/-- Sample standalone configuration, development mode off. -/
def exCfgS : Standalone.Config := ⟨"8080", "testkey", false, false, "INFO"⟩

/-- Sample standalone configuration, empty key, development mode off. -/
def exCfgSNoKey : Standalone.Config := ⟨"8080", "", false, false, "INFO"⟩

/-- Sample successful geocoding payload (spec sample city). -/
def exLoc : ViaCEPResponse :=
  ⟨"29902555", "Rua A", "", "Centro", "Vitória", "ES", "", "", "", "", false⟩

/-- Sample successful weather payload (spec sample temperatures). -/
def exSample : WeatherAPIResponse :=
  ⟨⟨"Vitoria", "Espirito Santo", "Brazil", 0, 0⟩, ⟨25.5, 77.9⟩⟩

/-- Sample decoded Resolver success report. -/
def exReport : Shared.WeatherResponse := ⟨"Vitória", 25.5, 77.9, 298.65⟩

/-- The anchored n-digit matcher accepts exactly the character lists of
length n all of whose characters are ASCII decimal digits. -/
theorem matchDigitsAnchored_iff (l : List Char) (n : Nat) :
    matchDigitsAnchored l n = true ↔
      l.length = n ∧ ∀ c ∈ l, c.isDigit = true := by
  induction l generalizing n with
  | nil => cases n <;> simp [matchDigitsAnchored]
  | cons c cs ih =>
    cases n with
    | zero => simp [matchDigitsAnchored]
    | succ n =>
      simp only [matchDigitsAnchored, Bool.and_eq_true, ih,
        List.length_cons, List.mem_cons, Nat.succ.injEq]
      constructor
      · rintro ⟨hc, hlen, hall⟩
        refine ⟨hlen, ?_⟩
        rintro x (rfl | hx)
        · exact hc
        · exact hall x hx
      · rintro ⟨hlen, hall⟩
        exact ⟨hall c (Or.inl rfl), hlen, fun x hx => hall x (Or.inr hx)⟩

/-- Appending anything to a string strictly longer than the target can
never produce the target; used to separate the formatted status-bearing
error strings from the two fixed sentinel error strings. -/
theorem append_ne_of_target_shorter (p t s : String)
    (h : t.length < p.length) : p ++ s ≠ t := by
  intro he
  have hl := congrArg String.length he
  rw [String.length_append] at hl
  omega

/-- C2: the postal-code validator returns true iff the string is exactly
8 ASCII decimal digits — every string of length other than 8 or containing
a non-digit yields false, every 8-digit numeric string yields true — and
the Gateway's, the Resolver's and the standalone service's validators
decide this identically. -/
theorem claim2_validator_iff_eight_digits (z : String) :
    (ServiceA.isValidZipcode z = ServiceB.isValidZipcode z ∧
      ServiceB.isValidZipcode z = Standalone.isValidZipcode z) ∧
    (ServiceB.isValidZipcode z = true ↔
      z.length = 8 ∧ ∀ c ∈ z.toList, c.isDigit = true) := by
  refine ⟨⟨rfl, rfl⟩, ?_⟩
  rw [ServiceB.isValidZipcode, matchDigitsAnchored_iff]
  exact Iff.rfl

/-- C1: the Gateway translates the Resolver's status on the combined
endpoint exactly as specified — Resolver 404 gives Gateway 404 with
message can not find zipcode, 422 gives 422 with invalid zipcode, any
other non-200 gives the 500 UpstreamFailure envelope, and a decodable 200
gives 200 with the report passed through unchanged. -/
theorem claim1_gateway_status_translation (cep : String) (status : Nat)
    (mbody : DecodeResult Shared.WeatherResponse)
    (w : Shared.WeatherResponse)
    (hvalid : ServiceA.isValidZipcode cep = true) :
    (status = 404 →
      ServiceA.handleCEPRequest ⟨"POST", .parsed cep⟩ (.response status mbody)
        = (⟨404, .msg "can not find zipcode"⟩, 1)) ∧
    (status = 422 →
      ServiceA.handleCEPRequest ⟨"POST", .parsed cep⟩ (.response status mbody)
        = (⟨422, .msg "invalid zipcode"⟩, 1)) ∧
    (status ≠ 200 → status ≠ 404 → status ≠ 422 →
      ServiceA.handleCEPRequest ⟨"POST", .parsed cep⟩ (.response status mbody)
        = (⟨500, .msg "error processing request"⟩, 1)) ∧
    (status = 200 → mbody = .decoded w →
      ServiceA.handleCEPRequest ⟨"POST", .parsed cep⟩ (.response status mbody)
        = (⟨200, .report w⟩, 1)) := by
  refine ⟨?_, ?_, ?_, ?_⟩
  · rintro rfl
    simp [ServiceA.handleCEPRequest, ServiceA.callServiceB, hvalid]
  · rintro rfl
    simp [ServiceA.handleCEPRequest, ServiceA.callServiceB, hvalid]
  · intro h200 h404 h422
    have h1 : ("service B returned status " ++ toString status)
        ≠ "can not find zipcode" :=
      append_ne_of_target_shorter _ _ _ (by decide)
    have h2 : ("service B returned status " ++ toString status)
        ≠ "invalid zipcode" :=
      append_ne_of_target_shorter _ _ _ (by decide)
    simp [ServiceA.handleCEPRequest, ServiceA.callServiceB, hvalid,
      h200, h404, h422, h1, h2]
  · rintro rfl rfl
    simp [ServiceA.handleCEPRequest, ServiceA.callServiceB, hvalid]

/-- Witness for C1 at cep 29902555 and a concrete 404 response. -/
theorem claim1_gateway_status_translation_witness :
    (404 = 404 →
      ServiceA.handleCEPRequest ⟨"POST", .parsed "29902555"⟩
          (.response 404 (.decoded exReport))
        = (⟨404, .msg "can not find zipcode"⟩, 1)) ∧
    (404 = 422 →
      ServiceA.handleCEPRequest ⟨"POST", .parsed "29902555"⟩
          (.response 404 (.decoded exReport))
        = (⟨422, .msg "invalid zipcode"⟩, 1)) ∧
    (404 ≠ 200 → 404 ≠ 404 → 404 ≠ 422 →
      ServiceA.handleCEPRequest ⟨"POST", .parsed "29902555"⟩
          (.response 404 (.decoded exReport))
        = (⟨500, .msg "error processing request"⟩, 1)) ∧
    (404 = 200 → DecodeResult.decoded exReport = .decoded exReport →
      ServiceA.handleCEPRequest ⟨"POST", .parsed "29902555"⟩
          (.response 404 (.decoded exReport))
        = (⟨200, .report exReport⟩, 1)) :=
  claim1_gateway_status_translation "29902555" 404 (.decoded exReport)
    exReport (by decide)

/-- C3: a request whose postal code fails validation is answered with 422
and the invalid zipcode envelope immediately, and no outbound call — to
the Resolver, the geocoding API or the weather API — is attempted, in all
three handlers. -/
theorem claim3_invalid_zipcode_rejected_without_outbound
    (cep : String) (b : ServiceA.BResult) (cfgB : Shared.Config)
    (cfgS : Standalone.Config)
    (geoB geoS : FetchResult ViaCEPResponse)
    (wB wS : FetchResult WeatherAPIResponse)
    (h : ServiceA.isValidZipcode cep = false) :
    ServiceA.handleCEPRequest ⟨"POST", .parsed cep⟩ b
      = (⟨422, .msg "invalid zipcode"⟩, 0) ∧
    ServiceB.handleWeatherRequest cfgB ⟨"POST", .parsed cep⟩ geoB wB
      = (⟨422, .msg "invalid zipcode"⟩, ⟨0, 0⟩) ∧
    Standalone.handleWeatherRequest cfgS cep geoS wS
      = (⟨422, .msg "invalid zipcode"⟩, ⟨0, 0⟩) := by
  have hB : ServiceB.isValidZipcode cep = false := h
  have hS : Standalone.isValidZipcode cep = false := h
  refine ⟨?_, ?_, ?_⟩
  · simp [ServiceA.handleCEPRequest, h]
  · simp [ServiceB.handleWeatherRequest, hB]
  · simp [Standalone.handleWeatherRequest, hS]

/-- Witness for C3 at the spec's sample invalid input 12345. -/
theorem claim3_invalid_zipcode_rejected_without_outbound_witness :
    ServiceA.handleCEPRequest ⟨"POST", .parsed "12345"⟩ .transportError
      = (⟨422, .msg "invalid zipcode"⟩, 0) ∧
    ServiceB.handleWeatherRequest exCfgB ⟨"POST", .parsed "12345"⟩
        .transportError .transportError
      = (⟨422, .msg "invalid zipcode"⟩, ⟨0, 0⟩) ∧
    Standalone.handleWeatherRequest exCfgS "12345"
        .transportError .transportError
      = (⟨422, .msg "invalid zipcode"⟩, ⟨0, 0⟩) :=
  claim3_invalid_zipcode_rejected_without_outbound "12345" .transportError
    exCfgB exCfgS .transportError .transportError .transportError
    .transportError (by decide)

/-- C4: for a valid-format code, every geocoding failure mode — transport
failure, non-200 upstream status, undecodable body, or a decoded body with
the not-found flag set or an empty city — makes the Resolver answer with
the single NotFound outcome: 404 and the can not find zipcode envelope. -/
theorem claim4_geocoding_failures_collapse_to_notfound
    (cfg : Shared.Config) (cep : String)
    (geo : FetchResult ViaCEPResponse)
    (weather : FetchResult WeatherAPIResponse)
    (hvalid : ServiceB.isValidZipcode cep = true)
    (hfail :
      geo = .transportError ∨
      (∃ st mb, geo = .response st mb ∧ st ≠ 200) ∨
      (∃ st, geo = .response st .malformed) ∨
      (∃ st v, geo = .response st (.decoded v) ∧
        (v.erro = true ∨ v.localidade = ""))) :
    ServiceB.handleWeatherRequest cfg ⟨"POST", .parsed cep⟩ geo weather
      = (⟨404, .msg "can not find zipcode"⟩, ⟨1, 0⟩) := by
  have herr : ∃ e, ServiceB.getLocationFromCEP geo = .error e := by
    rcases hfail with rfl | ⟨st, mb, rfl, hst⟩ | ⟨st, rfl⟩ | ⟨st, v, rfl, hv⟩
    · exact ⟨_, rfl⟩
    · simp [ServiceB.getLocationFromCEP, hst]
    · by_cases hst : st = 200 <;>
        simp [ServiceB.getLocationFromCEP, hst]
    · by_cases hst : st = 200
      · subst hst
        rcases hv with hv | hv <;>
          simp [ServiceB.getLocationFromCEP, hv]
      · simp [ServiceB.getLocationFromCEP, hst]
  obtain ⟨e, he⟩ := herr
  simp [ServiceB.handleWeatherRequest, hvalid, he]

/-- Witness for C4: the not-found flag case at the spec's sample code. -/
theorem claim4_geocoding_failures_collapse_to_notfound_witness :
    ServiceB.handleWeatherRequest exCfgB ⟨"POST", .parsed "29902555"⟩
        (.response 200 (.decoded
          ⟨"29902555", "", "", "", "", "", "", "", "", "", true⟩))
        .transportError
      = (⟨404, .msg "can not find zipcode"⟩, ⟨1, 0⟩) :=
  claim4_geocoding_failures_collapse_to_notfound exCfgB "29902555"
    (.response 200 (.decoded
      ⟨"29902555", "", "", "", "", "", "", "", "", "", true⟩))
    .transportError (by decide)
    (Or.inr (Or.inr (Or.inr ⟨200,
      ⟨"29902555", "", "", "", "", "", "", "", "", "", true⟩,
      rfl, Or.inl rfl⟩)))

/-- C5: for every successful weather sample the Kelvin field of the
returned report equals the upstream Celsius value plus 273.15 exactly
(derived, never fetched) — on the combined endpoint and on the standalone
handler's success path alike — and the Fahrenheit field on the combined
endpoint is the upstream sample's temp_f passed through without
recomputation. -/
theorem claim5_kelvin_derived_fahrenheit_passthrough
    (cfg : Shared.Config) (cfgS : Standalone.Config) (cep : String)
    (geo : FetchResult ViaCEPResponse) (loc : ViaCEPResponse)
    (w : WeatherAPIResponse)
    (hvalid : ServiceB.isValidZipcode cep = true)
    (hgeo : ServiceB.getLocationFromCEP geo = .ok loc)
    (hkey : cfg.weatherAPIKey ≠ "")
    (hkeyS : cfgS.weatherAPIKey ≠ "") :
    ServiceB.handleWeatherRequest cfg ⟨"POST", .parsed cep⟩ geo
        (.response 200 (.decoded w))
      = (⟨200, .report ⟨loc.localidade, w.current.tempC, w.current.tempF,
          w.current.tempC + 273.15⟩⟩, ⟨1, 1⟩) ∧
    Standalone.handleWeatherRequest cfgS cep geo
        (.response 200 (.decoded w))
      = (⟨200, .report ⟨w.current.tempC, w.current.tempF,
          w.current.tempC + 273.15⟩⟩, ⟨1, 1⟩) := by
  have hS : Standalone.isValidZipcode cep = true := hvalid
  have hgeoS : Standalone.getLocationFromCEP geo = .ok loc := hgeo
  constructor
  · simp [ServiceB.handleWeatherRequest, ServiceB.getWeatherFromLocation,
      hvalid, hgeo, hkey]
  · simp [Standalone.handleWeatherRequest, Standalone.getWeatherFromLocation,
      hS, hgeoS, hkeyS]

/-- Witness for C5 at the spec's end-to-end sample: 25.5 C and 77.9 F
upstream give the report Vitória, 25.5, 77.9, 298.65 on the combined
endpoint, and 25.5, 77.9, 298.65 without the city on the standalone
handler. -/
theorem claim5_kelvin_derived_fahrenheit_passthrough_witness :
    ServiceB.handleWeatherRequest exCfgB ⟨"POST", .parsed "29902555"⟩
        (.response 200 (.decoded exLoc)) (.response 200 (.decoded exSample))
      = (⟨200, .report ⟨exLoc.localidade, exSample.current.tempC,
          exSample.current.tempF, exSample.current.tempC + 273.15⟩⟩,
        ⟨1, 1⟩) ∧
    Standalone.handleWeatherRequest exCfgS "29902555"
        (.response 200 (.decoded exLoc)) (.response 200 (.decoded exSample))
      = (⟨200, .report ⟨exSample.current.tempC, exSample.current.tempF,
          exSample.current.tempC + 273.15⟩⟩, ⟨1, 1⟩) :=
  claim5_kelvin_derived_fahrenheit_passthrough exCfgB exCfgS "29902555"
    (.response 200 (.decoded exLoc)) exLoc exSample
    (by decide) (by rfl) (by decide) (by decide)

/-- The spec's sample arithmetic: 25.5 plus 273.15 is 298.65 in the exact
rational model of the float values. -/
theorem exSample_kelvin_value :
    exSample.current.tempC + 273.15 = (298.65 : Rat) := by
  norm_num [exSample]

/-- C6 counterexample: in the standalone deployment with development mode
enabled and an empty API key, a valid request whose geocoding succeeds is
answered with status 200 (mock data) while zero calls to the weather API
were attempted — the request does not fail with an error, contradicting
the claim as stated. -/
theorem claim6_counterexample_devmode_mock_succeeds :
    (Standalone.handleWeatherRequest ⟨"8080", "", true, false, "INFO"⟩
        "29902555" (.response 200 (.decoded exLoc)) .transportError).1.status
      = 200 ∧
    (Standalone.handleWeatherRequest ⟨"8080", "", true, false, "INFO"⟩
        "29902555" (.response 200 (.decoded exLoc))
        .transportError).2.weatherCalls = 0 := by
  constructor <;> rfl

/-- C6 amended: with an empty API key the weather lookup fails before any
HTTP call to the weather API is issued, with a configuration error message
distinct from the geocoding errors; the request then fails with the 500
envelope in the Resolver and in the standalone service with development
mode off, while in the standalone service with development mode on the
mock fallback substitutes the failure and the request succeeds. -/
theorem claim6_empty_key_fails_before_weather_call
    (cfg : Shared.Config) (cfgS : Standalone.Config) (cep : String)
    (geo : FetchResult ViaCEPResponse) (loc : ViaCEPResponse)
    (weather weatherS : FetchResult WeatherAPIResponse)
    (hkey : cfg.weatherAPIKey = "") (hkeyS : cfgS.weatherAPIKey = "")
    (hvalid : ServiceB.isValidZipcode cep = true)
    (hgeo : ServiceB.getLocationFromCEP geo = .ok loc) :
    ServiceB.getWeatherFromLocation cfg.weatherAPIKey weather
      = (.error "WEATHER_API_KEY environment variable not set", 0) ∧
    ServiceB.handleWeatherRequest cfg ⟨"POST", .parsed cep⟩ geo weather
      = (⟨500, .msg "error getting weather information"⟩, ⟨1, 0⟩) ∧
    (cfgS.devMode = false →
      Standalone.handleWeatherRequest cfgS cep geo weatherS
        = (⟨500, .msg "error getting weather information"⟩, ⟨1, 0⟩)) ∧
    (cfgS.devMode = true →
      Standalone.handleWeatherRequest cfgS cep geo weatherS
        = (⟨200, .report ⟨25, 77, 25 + 273.15⟩⟩, ⟨1, 0⟩)) := by
  have hS : Standalone.isValidZipcode cep = true := hvalid
  have hgeoS : Standalone.getLocationFromCEP geo = .ok loc := hgeo
  refine ⟨?_, ?_, ?_, ?_⟩
  · simp [ServiceB.getWeatherFromLocation, hkey]
  · simp [ServiceB.handleWeatherRequest, ServiceB.getWeatherFromLocation,
      hvalid, hgeo, hkey]
  · intro hdev
    simp [Standalone.handleWeatherRequest, Standalone.getWeatherFromLocation,
      hS, hgeoS, hkeyS, hdev]
  · intro hdev
    simp [Standalone.handleWeatherRequest, Standalone.getWeatherFromLocation,
      Standalone.getMockWeatherData, hS, hgeoS, hkeyS, hdev]

/-- Witness for C6 amended at concrete empty-key configurations. -/
theorem claim6_empty_key_fails_before_weather_call_witness :
    ServiceB.getWeatherFromLocation exCfgBNoKey.weatherAPIKey
        (.response 200 (.decoded exSample))
      = (.error "WEATHER_API_KEY environment variable not set", 0) ∧
    ServiceB.handleWeatherRequest exCfgBNoKey ⟨"POST", .parsed "29902555"⟩
        (.response 200 (.decoded exLoc)) (.response 200 (.decoded exSample))
      = (⟨500, .msg "error getting weather information"⟩, ⟨1, 0⟩) ∧
    (exCfgSNoKey.devMode = false →
      Standalone.handleWeatherRequest exCfgSNoKey "29902555"
          (.response 200 (.decoded exLoc)) (.response 200 (.decoded exSample))
        = (⟨500, .msg "error getting weather information"⟩, ⟨1, 0⟩)) ∧
    (exCfgSNoKey.devMode = true →
      Standalone.handleWeatherRequest exCfgSNoKey "29902555"
          (.response 200 (.decoded exLoc)) (.response 200 (.decoded exSample))
        = (⟨200, .report ⟨25, 77, 25 + 273.15⟩⟩, ⟨1, 0⟩)) :=
  claim6_empty_key_fails_before_weather_call exCfgBNoKey exCfgSNoKey
    "29902555" (.response 200 (.decoded exLoc)) exLoc
    (.response 200 (.decoded exSample)) (.response 200 (.decoded exSample))
    (by rfl) (by rfl) (by decide) (by rfl)

/-- C7: in the standalone deployment the mock fallback is substituted for
a failed weather call exactly when the development-mode flag is set: with
the flag off a failed weather call yields the 500 envelope, and with the
flag on the response is built from getMockWeatherData, which echoes the
city name and carries 25 Celsius and 77 Fahrenheit. -/
theorem claim7_mock_fallback_only_in_dev_mode
    (cfg : Standalone.Config) (zipcode : String)
    (geo : FetchResult ViaCEPResponse) (loc : ViaCEPResponse)
    (weather : FetchResult WeatherAPIResponse) (e : String) (n : Nat)
    (hvalid : Standalone.isValidZipcode zipcode = true)
    (hgeo : Standalone.getLocationFromCEP geo = .ok loc)
    (hfail : Standalone.getWeatherFromLocation cfg.weatherAPIKey weather
      = (.error e, n)) :
    (cfg.devMode = false →
      Standalone.handleWeatherRequest cfg zipcode geo weather
        = (⟨500, .msg "error getting weather information"⟩, ⟨1, n⟩)) ∧
    (cfg.devMode = true →
      Standalone.handleWeatherRequest cfg zipcode geo weather
        = (⟨200, .report
            ⟨(Standalone.getMockWeatherData loc.localidade).current.tempC,
              (Standalone.getMockWeatherData loc.localidade).current.tempF,
              (Standalone.getMockWeatherData loc.localidade).current.tempC
                + 273.15⟩⟩, ⟨1, n⟩)) ∧
    (Standalone.getMockWeatherData loc.localidade).current.tempC = 25 ∧
    (Standalone.getMockWeatherData loc.localidade).current.tempF = 77 ∧
    (Standalone.getMockWeatherData loc.localidade).location.name
      = loc.localidade := by
  refine ⟨?_, ?_, rfl, rfl, rfl⟩
  · intro hdev
    simp [Standalone.handleWeatherRequest, hvalid, hgeo, hfail, hdev]
  · intro hdev
    simp [Standalone.handleWeatherRequest, hvalid, hgeo, hfail, hdev]

/-- Witness for C7: development mode off, transport failure at the
weather call, concrete inputs. -/
theorem claim7_mock_fallback_only_in_dev_mode_witness :
    (exCfgS.devMode = false →
      Standalone.handleWeatherRequest exCfgS "29902555"
          (.response 200 (.decoded exLoc)) .transportError
        = (⟨500, .msg "error getting weather information"⟩, ⟨1, 1⟩)) ∧
    (exCfgS.devMode = true →
      Standalone.handleWeatherRequest exCfgS "29902555"
          (.response 200 (.decoded exLoc)) .transportError
        = (⟨200, .report
            ⟨(Standalone.getMockWeatherData exLoc.localidade).current.tempC,
              (Standalone.getMockWeatherData exLoc.localidade).current.tempF,
              (Standalone.getMockWeatherData exLoc.localidade).current.tempC
                + 273.15⟩⟩, ⟨1, 1⟩)) ∧
    (Standalone.getMockWeatherData exLoc.localidade).current.tempC = 25 ∧
    (Standalone.getMockWeatherData exLoc.localidade).current.tempF = 77 ∧
    (Standalone.getMockWeatherData exLoc.localidade).location.name
      = exLoc.localidade :=
  claim7_mock_fallback_only_in_dev_mode exCfgS "29902555"
    (.response 200 (.decoded exLoc)) exLoc .transportError
    "failed to make request" 1 (by decide) (by rfl) (by rfl)

/-- C8: every handler writes exactly one response, and it is either a 200
carrying the full report or an error status carrying a single error
envelope; no partial success fields accompany or precede an error, in any
of the three handlers, for any inputs. -/
theorem claim8_single_response_no_partial
    (req : Request) (b : ServiceA.BResult) (cfgB : Shared.Config)
    (cfgS : Standalone.Config) (zipcode : String)
    (geoB geoS : FetchResult ViaCEPResponse)
    (wB wS : FetchResult WeatherAPIResponse) :
    wellFormedResponse (ServiceA.handleCEPRequest req b).1 ∧
    wellFormedResponse (ServiceB.handleWeatherRequest cfgB req geoB wB).1 ∧
    wellFormedResponse
      (Standalone.handleWeatherRequest cfgS zipcode geoS wS).1 := by
  refine ⟨?_, ?_, ?_⟩
  · unfold wellFormedResponse ServiceA.handleCEPRequest
    repeat' split
    all_goals simp
  · unfold wellFormedResponse ServiceB.handleWeatherRequest
    repeat' split
    all_goals simp
  · unfold wellFormedResponse Standalone.handleWeatherRequest
    repeat' split
    all_goals simp

/-- C9: resolution is a deterministic function of the request and the
upstream responses — two resolutions of the same postal code with
identical upstream stubs are equal, and the result depends on the ambient
configuration only through the weather API key (and, in the standalone
service, the development-mode flag), so no hidden cross-request state can
drift the report. -/
theorem claim9_resolution_deterministic
    (cfg cfg2 : Shared.Config) (cfgS cfgS2 : Standalone.Config)
    (req : Request) (zipcode : String)
    (geo : FetchResult ViaCEPResponse)
    (weather : FetchResult WeatherAPIResponse)
    (hkey : cfg.weatherAPIKey = cfg2.weatherAPIKey)
    (hkeyS : cfgS.weatherAPIKey = cfgS2.weatherAPIKey)
    (hdev : cfgS.devMode = cfgS2.devMode) :
    ServiceB.handleWeatherRequest cfg req geo weather
      = ServiceB.handleWeatherRequest cfg2 req geo weather ∧
    Standalone.handleWeatherRequest cfgS zipcode geo weather
      = Standalone.handleWeatherRequest cfgS2 zipcode geo weather := by
  constructor
  · simp only [ServiceB.handleWeatherRequest, hkey]
  · simp only [Standalone.handleWeatherRequest, hkeyS, hdev]

/-- Witness for C9: two literally distinct configurations agreeing on the
key and the flag give equal resolutions at the spec's sample inputs. -/
theorem claim9_resolution_deterministic_witness :
    ServiceB.handleWeatherRequest exCfgB ⟨"POST", .parsed "29902555"⟩
        (.response 200 (.decoded exLoc)) (.response 200 (.decoded exSample))
      = ServiceB.handleWeatherRequest
          ⟨"9999", "DEBUG", true, "testkey", "http://other:1", "http://z:2"⟩
          ⟨"POST", .parsed "29902555"⟩
          (.response 200 (.decoded exLoc))
          (.response 200 (.decoded exSample)) ∧
    Standalone.handleWeatherRequest exCfgS "29902555"
        (.response 200 (.decoded exLoc)) (.response 200 (.decoded exSample))
      = Standalone.handleWeatherRequest
          ⟨"9999", "testkey", false, true, "DEBUG"⟩ "29902555"
          (.response 200 (.decoded exLoc))
          (.response 200 (.decoded exSample)) :=
  claim9_resolution_deterministic exCfgB
    ⟨"9999", "DEBUG", true, "testkey", "http://other:1", "http://z:2"⟩
    exCfgS ⟨"9999", "testkey", false, true, "DEBUG"⟩
    ⟨"POST", .parsed "29902555"⟩ "29902555"
    (.response 200 (.decoded exLoc)) (.response 200 (.decoded exSample))
    (by rfl) (by rfl) (by rfl)

/-- C10: both boolean environment readers return the supplied default when
the value is unset (empty) or does not parse as a Go boolean, and in
particular an unparsable DEV_MODE value leaves the development-mode flag
of the loaded configuration disabled. -/
theorem claim10_bool_env_default_on_unparsable
    (value : String) (dflt : Bool) (env : String → String)
    (h : value = "" ∨ parseBool value = none)
    (hdev : parseBool (env "DEV_MODE") = none) :
    ConfigPkg.getEnvAsBool value dflt = dflt ∧
    Shared.getEnvBool value dflt = dflt ∧
    (ConfigPkg.GetConfig env).devMode = false := by
  have hAs : ∀ v d, (v = "" ∨ parseBool v = none) →
      ConfigPkg.getEnvAsBool v d = d := by
    intro v d hv
    rcases hv with rfl | hv
    · rfl
    · rw [ConfigPkg.getEnvAsBool, hv]
      split <;> rfl
  refine ⟨hAs value dflt h, ?_, hAs _ false (Or.inr hdev)⟩
  rcases h with rfl | h
  · rfl
  · rw [Shared.getEnvBool, h]
    split <;> rfl

/-- Witness for C10: the unparsable values banana and maybe leave the
defaults, and DEV_MODE set to maybe keeps development mode off. -/
theorem claim10_bool_env_default_on_unparsable_witness :
    ConfigPkg.getEnvAsBool "banana" true = true ∧
    Shared.getEnvBool "banana" true = true ∧
    (ConfigPkg.GetConfig fun _ => "maybe").devMode = false :=
  claim10_bool_env_default_on_unparsable "banana" true (fun _ => "maybe")
    (Or.inr (by decide)) (by decide)
